import Mathlib

/-!
Verification of the tool-definition, validation, conditional-exposure and
response-composition core of the chrome-devtools-mcp repository, against the
tool definitions in `src/src/tools/extensions.ts`.  That file carries two
versions of the extensions module: a first version (embedded below in
namespace `V1`) whose tool annotations carry no `conditions`, and a second
version (namespace `V2`) that introduces `EXTENSIONS_CONDITION =
"experimentalExtensionSupport"` and attaches it to four of the five tools.
The dispatcher, schema validator, registry and response builder are not part
of the source tree; they are modelled from the specification (sections 3, 4.1,
4.3, 4.4) and marked as such in their doc comments.
-/

namespace CDM

/-- Modelled from the spec: the `ToolCategory` enum lives in
`src/tools/categories.ts`, which is not under `src/`; only the two tags used
by `extensions.ts` (`EXTENSIONS` and `DEBUGGING`) are modelled. -/
inductive ToolCategory where
  | EXTENSIONS
  | DEBUGGING
deriving DecidableEq, Repr

/-- The annotation metadata of a tool definition: category tag, mutability
hint, and the feature-gating condition names.  In the source the `conditions`
key is simply absent from the first version of the module and from both
`open_extension_sidepanel` definitions; absence is modelled as the empty
list (the default). -/
structure ToolAnnots where
  category : ToolCategory
  readOnlyHint : Bool
  conditions : List String := []
deriving DecidableEq, Repr

/-- An extension record as returned by the execution context's
`getExtension`.  The context type is external to the core (spec section 6);
the handlers of `extensions.ts` consume only its `path` field. -/
structure ExtensionRecord where
  path : String
deriving DecidableEq, Repr

/-- The result of the execution context's `openExtensionSidepanel`:
`\x7burl, note, windowId\x7d` (spec section 6). -/
structure SidepanelResult where
  url : String
  note : String
  windowId : Nat
deriving DecidableEq, Repr

/-- The execution context capability surface consumed by the handlers
(spec section 6, external collaborator).  A fallible capability is modelled
as `Except String` carrying the error message; `getExtension` never throws,
absence being a valid result (`Option`). -/
structure Ctx where
  installExtension : String → Except String String
  uninstallExtension : String → Except String Unit
  getExtension : String → Option ExtensionRecord
  openExtensionSidepanel : String → Except String SidepanelResult

/-- A single call made by a handler on the execution context, recorded so
that theorems can count calls and inspect their arguments. -/
inductive CtxCall where
  | installExtension (path : String)
  | uninstallExtension (id : String)
  | getExtension (id : String)
  | openExtensionSidepanel (id : String)
deriving DecidableEq, Repr

/-- Modelled from the spec: the Response Builder (section 4.4) — an ordered,
append-only sequence of text lines plus the two rendering flags set by the
tools of `extensions.ts` (`setListExtensions`, `setIncludePages`). -/
structure ResponseState where
  lines : List String := []
  listExtensions : Bool := false
  includePages : Bool := false
deriving DecidableEq, Repr

/-- `appendResponseLine` appends one text line at the end of the ordered
sequence (spec section 4.4). -/
def appendResponseLine (r : ResponseState) (s : String) : ResponseState :=
  { r with lines := r.lines ++ [s] }

/-- `setListExtensions()` records the request for the rendered extension
list; it takes no argument in the source, so it sets the flag to `true`. -/
def setListExtensions (r : ResponseState) : ResponseState :=
  { r with listExtensions := true }

/-- `setIncludePages(b)` records whether the open pages are to be included
in the rendered payload; last write wins. -/
def setIncludePages (r : ResponseState) (b : Bool) : ResponseState :=
  { r with includePages := b }

/-- The outcome of running one handler: whether it returned normally or
signalled an error (a thrown `Error`, carrying its message), the response
builder state at that moment, and the ordered trace of execution-context
calls it made. -/
structure HandlerResult where
  outcome : Except String Unit
  response : ResponseState
  calls : List CtxCall
deriving Repr

/-- Typed parameters of `install_extension`: `\x7bpath: required string\x7d`. -/
structure InstallParams where
  path : String
deriving DecidableEq, Repr

/-- Typed parameters of `uninstall_extension`, `reload_extension` and the
first `open_extension_sidepanel`: `\x7bid: required string\x7d`. -/
structure IdParams where
  id : String
deriving DecidableEq, Repr

/-- Typed parameters of the second `open_extension_sidepanel`:
`\x7bextensionId: required string\x7d`. -/
structure ExtensionIdParams where
  extensionId : String
deriving DecidableEq, Repr

/-- Handler of `install_extension` (identical in both versions of the
module): awaits `context.installExtension(path)` and appends
`Extension installed. Id: $\x7bid\x7d`; a context failure propagates. -/
def installExtensionHandler (p : InstallParams) (r : ResponseState) (ctx : Ctx) :
    HandlerResult :=
  let path := p.path
  match ctx.installExtension path with
  | .error e =>
      { outcome := .error e, response := r, calls := [.installExtension path] }
  | .ok id =>
      { outcome := .ok ()
        response := appendResponseLine r s!"Extension installed. Id: {id}"
        calls := [.installExtension path] }

/-- Handler of `uninstall_extension` (identical in both versions): awaits
`context.uninstallExtension(id)` and appends
`Extension uninstalled. Id: $\x7bid\x7d`. -/
def uninstallExtensionHandler (p : IdParams) (r : ResponseState) (ctx : Ctx) :
    HandlerResult :=
  let id := p.id
  match ctx.uninstallExtension id with
  | .error e =>
      { outcome := .error e, response := r, calls := [.uninstallExtension id] }
  | .ok _ =>
      { outcome := .ok ()
        response := appendResponseLine r s!"Extension uninstalled. Id: {id}"
        calls := [.uninstallExtension id] }

/-- Handler of `list_extensions` (identical in both versions): its body is
exactly `response.setListExtensions()`; it touches neither the context nor
the line sequence. -/
def listExtensionsHandler (r : ResponseState) (_ctx : Ctx) : HandlerResult :=
  { outcome := .ok (), response := setListExtensions r, calls := [] }

/-- Handler of `reload_extension` (identical in both versions): looks the id
up via `context.getExtension`; throws `Extension with ID $\x7bid\x7d not found.`
on absence; otherwise awaits `context.installExtension(extension.path)` and
appends `Extension reloaded.`. -/
def reloadExtensionHandler (p : IdParams) (r : ResponseState) (ctx : Ctx) :
    HandlerResult :=
  let id := p.id
  match ctx.getExtension id with
  | none =>
      { outcome := .error s!"Extension with ID {id} not found."
        response := r
        calls := [.getExtension id] }
  | some extension =>
      let path := extension.path
      match ctx.installExtension path with
      | .error e =>
          { outcome := .error e, response := r
            calls := [.getExtension id, .installExtension path] }
      | .ok _ =>
          { outcome := .ok ()
            response := appendResponseLine r "Extension reloaded."
            calls := [.getExtension id, .installExtension path] }

/-- Handler of the first (EXTENSIONS-category) `open_extension_sidepanel`:
awaits `context.openExtensionSidepanel(request.params.id)`, appends the
three lines `Sidepanel opened: $\x7burl\x7d`, an empty line, `> $\x7bnote\x7d`, then
`setIncludePages(true)`.  A context failure propagates uncaught. -/
def openExtensionSidepanelHandler (p : IdParams) (r : ResponseState) (ctx : Ctx) :
    HandlerResult :=
  let id := p.id
  match ctx.openExtensionSidepanel id with
  | .error e =>
      { outcome := .error e, response := r, calls := [.openExtensionSidepanel id] }
  | .ok result =>
      let url := result.url
      let note := result.note
      let r := appendResponseLine r s!"Sidepanel opened: {url}"
      let r := appendResponseLine r ""
      let r := appendResponseLine r s!"> {note}"
      let r := setIncludePages r true
      { outcome := .ok (), response := r, calls := [.openExtensionSidepanel id] }

/-- Handler of the second (DEBUGGING-category) `open_extension_sidepanel`:
wraps the context call in try/catch.  On success it appends eight lines and
sets the include-pages flag; on failure it catches the error itself and
renders a failure report (headline, error message and troubleshooting
bullets) into the response builder, returning normally. -/
def openExtensionSidepanelDebugHandler (p : ExtensionIdParams) (r : ResponseState)
    (ctx : Ctx) : HandlerResult :=
  let extensionId := p.extensionId
  match ctx.openExtensionSidepanel extensionId with
  | .ok result =>
      let url := result.url
      let note := result.note
      let windowId := result.windowId
      let r := appendResponseLine r "# Sidepanel Opened Successfully"
      let r := appendResponseLine r ""
      let r := appendResponseLine r s!"**URL:** {url}"
      let r := appendResponseLine r s!"**Window ID:** {windowId}"
      let r := appendResponseLine r ""
      let r := appendResponseLine r s!"> {note}"
      let r := appendResponseLine r ""
      let r := appendResponseLine r
        "Use `list_pages` to see the sidepanel and `select_page` to interact with it."
      let r := setIncludePages r true
      { outcome := .ok (), response := r, calls := [.openExtensionSidepanel extensionId] }
  | .error error =>
      let errorMessage := error
      let r := appendResponseLine r "# Failed to Open Sidepanel"
      let r := appendResponseLine r ""
      let r := appendResponseLine r s!"**Error:** {errorMessage}"
      let r := appendResponseLine r ""
      let r := appendResponseLine r "**Troubleshooting:**"
      let r := appendResponseLine r "- Ensure the extension is installed and enabled"
      let r := appendResponseLine r
        "- Verify the extension has a `side_panel.default_path` in its manifest.json"
      let r := appendResponseLine r "- Check that the extension has a service worker running"
      let r := appendResponseLine r "- Use `list_pages` to see available service workers"
      { outcome := .ok (), response := r, calls := [.openExtensionSidepanel extensionId] }

/-- A tool definition (spec section 3): name, description, annotation
metadata, the declared parameter schema (the list of required string-typed
keys with their `describe` documentation), and the handler.  `run` is the
handler as invoked by the dispatcher on the validated, schema-shaped
parameter map; the dispatcher only calls it after validation, so every
schema key is present in the map. -/
structure ToolDefinition where
  name : String
  description : String
  annots : ToolAnnots
  schema : List (String × String)
  run : List (String × String) → ResponseState → Ctx → HandlerResult

namespace V1

/-- `installExtension` of the first module version (no `conditions`). -/
def installExtension : ToolDefinition where
  name := "install_extension"
  description := "Installs a Chrome extension from the given path."
  annots := { category := .EXTENSIONS, readOnlyHint := false }
  schema := [("path", "Absolute path to the unpacked extension folder.")]
  run := fun params r ctx =>
    installExtensionHandler ⟨(params.lookup "path").getD ""⟩ r ctx

/-- `uninstallExtension` of the first module version. -/
def uninstallExtension : ToolDefinition where
  name := "uninstall_extension"
  description := "Uninstalls a Chrome extension by its ID."
  annots := { category := .EXTENSIONS, readOnlyHint := false }
  schema := [("id", "ID of the extension to uninstall.")]
  run := fun params r ctx =>
    uninstallExtensionHandler ⟨(params.lookup "id").getD ""⟩ r ctx

/-- `listExtensions` of the first module version. -/
def listExtensions : ToolDefinition where
  name := "list_extensions"
  description := "Lists extensions installed via this server (using install_extension), including their name, ID, version, and path. Note: Pre-installed browser extensions are not shown here. Use list_pages to see all extension service workers."
  annots := { category := .EXTENSIONS, readOnlyHint := true }
  schema := []
  run := fun _params r ctx => listExtensionsHandler r ctx

/-- `reloadExtension` of the first module version. -/
def reloadExtension : ToolDefinition where
  name := "reload_extension"
  description := "Reloads an unpacked Chrome extension by its ID."
  annots := { category := .EXTENSIONS, readOnlyHint := false }
  schema := [("id", "ID of the extension to reload.")]
  run := fun params r ctx =>
    reloadExtensionHandler ⟨(params.lookup "id").getD ""⟩ r ctx

/-- `openExtensionSidepanel` of the first module version: EXTENSIONS
category, parameter key `id`, no `conditions`, error propagated to the
dispatcher. -/
def openExtensionSidepanel : ToolDefinition where
  name := "open_extension_sidepanel"
  description := "Opens an extension\x27s sidepanel for debugging. Due to Chrome security restrictions, the sidepanel opens in a detached popup window rather than docked to the browser sidebar."
  annots := { category := .EXTENSIONS, readOnlyHint := false }
  schema := [("id", "The extension ID. Find IDs via list_pages (shown in Service Workers section) or list_extensions (for extensions installed via this server).")]
  run := fun params r ctx =>
    openExtensionSidepanelHandler ⟨(params.lookup "id").getD ""⟩ r ctx

/-- The registry holding the first module version\x27s definitions, in file
order (spec section 3: populated once at startup from a fixed set of
definitions). -/
def registry : List ToolDefinition :=
  [installExtension, uninstallExtension, listExtensions, reloadExtension,
   openExtensionSidepanel]

end V1

namespace V2

/-- `EXTENSIONS_CONDITION` of the second module version. -/
def EXTENSIONS_CONDITION : String := "experimentalExtensionSupport"

/-- `installExtension` of the second module version: gated on
`EXTENSIONS_CONDITION`. -/
def installExtension : ToolDefinition where
  name := "install_extension"
  description := "Installs a Chrome extension from the given path."
  annots := { category := .EXTENSIONS, readOnlyHint := false
              conditions := [EXTENSIONS_CONDITION] }
  schema := [("path", "Absolute path to the unpacked extension folder.")]
  run := fun params r ctx =>
    installExtensionHandler ⟨(params.lookup "path").getD ""⟩ r ctx

/-- `uninstallExtension` of the second module version: gated. -/
def uninstallExtension : ToolDefinition where
  name := "uninstall_extension"
  description := "Uninstalls a Chrome extension by its ID."
  annots := { category := .EXTENSIONS, readOnlyHint := false
              conditions := [EXTENSIONS_CONDITION] }
  schema := [("id", "ID of the extension to uninstall.")]
  run := fun params r ctx =>
    uninstallExtensionHandler ⟨(params.lookup "id").getD ""⟩ r ctx

/-- `listExtensions` of the second module version: gated. -/
def listExtensions : ToolDefinition where
  name := "list_extensions"
  description := "Lists all extensions via this server, including their name, ID, version, and enabled status."
  annots := { category := .EXTENSIONS, readOnlyHint := true
              conditions := [EXTENSIONS_CONDITION] }
  schema := []
  run := fun _params r ctx => listExtensionsHandler r ctx

/-- `reloadExtension` of the second module version: gated. -/
def reloadExtension : ToolDefinition where
  name := "reload_extension"
  description := "Reloads an unpacked Chrome extension by its ID."
  annots := { category := .EXTENSIONS, readOnlyHint := false
              conditions := [EXTENSIONS_CONDITION] }
  schema := [("id", "ID of the extension to reload.")]
  run := fun params r ctx =>
    reloadExtensionHandler ⟨(params.lookup "id").getD ""⟩ r ctx

/-- `openExtensionSidepanel` of the second module version: DEBUGGING
category, parameter key `extensionId`, NO `conditions` key (it is the one
tool of this version without the gate), errors caught by the handler
itself. -/
def openExtensionSidepanel : ToolDefinition where
  name := "open_extension_sidepanel"
  description := "Opens an extension\x27s sidepanel for debugging. Due to Chrome security restrictions, the sidepanel opens in a detached popup window rather than docked to the browser sidebar."
  annots := { category := .DEBUGGING, readOnlyHint := false }
  schema := [("extensionId", "The ID of the extension whose sidepanel should be opened. Find extension IDs at chrome://extensions or from list_pages service worker URLs.")]
  run := fun params r ctx =>
    openExtensionSidepanelDebugHandler ⟨(params.lookup "extensionId").getD ""⟩ r ctx

/-- The registry holding the second module version\x27s definitions, in file
order. -/
def registry : List ToolDefinition :=
  [installExtension, uninstallExtension, listExtensions, reloadExtension,
   openExtensionSidepanel]

end V2

/-- A schema-validation failure, naming the offending keys (spec section
4.1: missing required keys and extraneous keys are both rejected). -/
structure ValidationError where
  missing : List String
  extraneous : List String
deriving DecidableEq, Repr

/-- Modelled from the spec: the Schema Validator of section 4.1, which is
not under `src/` (the source delegates to the external zod library).
`validate(schema, rawParams)` succeeds iff every declared key is present
and no extraneous key occurs (closed-schema policy), returning the
schema-shaped map of exactly the declared keys; it fails with a
`ValidationError` naming the offending keys. -/
def validate (schema : List (String × String)) (raw : List (String × String)) :
    Except ValidationError (List (String × String)) :=
  let declared := schema.map Prod.fst
  let given := raw.map Prod.fst
  let missing := declared.filter (fun k => ¬ given.contains k)
  let extraneous := given.filter (fun k => ¬ declared.contains k)
  if missing.isEmpty && extraneous.isEmpty then
    .ok (schema.filterMap (fun kv => (raw.lookup kv.fst).map (fun v => (kv.fst, v))))
  else
    .error { missing := missing, extraneous := extraneous }

/-- The outcome the dispatcher returns to the caller (spec sections 4.3 and
7): not-found, validation failure, handler failure converted into an
error-flavored response, or a successful finalized response. -/
inductive DispatchOutcome where
  | notFound
  | validationFailed (e : ValidationError)
  | handlerFailed (message : String) (response : ResponseState)
  | success (response : ResponseState)
deriving DecidableEq, Repr

/-- Modelled from the spec: `listAvailable(activeCapabilities)` of section
4.3, which is not under `src/`.  It filters the registry, in registration
order, to the definitions whose `conditions` are a subset of the active
capability set. -/
def listAvailable (reg : List ToolDefinition) (caps : List String) :
    List ToolDefinition :=
  reg.filter (fun t => t.annots.conditions.all (fun c => caps.contains c))

/-- Modelled from the spec: `invoke(name, rawParams, activeCapabilities,
context)` of section 4.3, which is not under `src/`.  It looks the name up
(`NotFoundError` if absent, and the identical outcome if present but gated
out by `conditions`), runs the Schema Validator (failure returns without
invoking the handler), constructs a fresh Response Builder, runs the
handler, converts an uncaught handler failure into a handler-error
response, and otherwise drains the builder into the final response.  The
second component is the trace of execution-context calls made. -/
def invoke (reg : List ToolDefinition) (name : String)
    (raw : List (String × String)) (caps : List String) (ctx : Ctx) :
    DispatchOutcome × List CtxCall :=
  match reg.find? (fun t => t.name == name) with
  | none => (.notFound, [])
  | some t =>
    if t.annots.conditions.all (fun c => caps.contains c) then
      match validate t.schema raw with
      | .error e => (.validationFailed e, [])
      | .ok params =>
        let res := t.run params {} ctx
        match res.outcome with
        | .error msg => (.handlerFailed msg res.response, res.calls)
        | .ok _ => (.success res.response, res.calls)
    else
      (.notFound, [])

/-! ## Theorems settling the claims -/

/-- C1 (counterexample): the claim says `open_extension_sidepanel` is absent
from `listAvailable(\x7b\x7d)`; in fact it is the ONE tool of the
conditions-bearing module version without a `conditions` key, so it is
present — indeed it is the only tool exposed for the empty capability
set. -/
theorem openExtensionSidepanel_present_empty_caps :
    ((listAvailable V2.registry []).map (fun t => t.name)).contains
        "open_extension_sidepanel" = true ∧
    (listAvailable V2.registry []).map (fun t => t.name) =
      ["open_extension_sidepanel"] :=
  ⟨rfl, rfl⟩

/-- C1 (amended): `open_extension_sidepanel` carries no conditions, so it is
present in `listAvailable` for the empty capability set as well as for one
containing `experimentalExtensionSupport`; the tools actually gated on that
condition are `install_extension`, `uninstall_extension`, `list_extensions`
and `reload_extension`, each absent from `listAvailable(\x7b\x7d)` and present
once the capability is active. -/
theorem extensionsCondition_gating :
    V2.openExtensionSidepanel.annots.conditions = [] ∧
    (listAvailable V2.registry []).map (fun t => t.name) =
      ["open_extension_sidepanel"] ∧
    (listAvailable V2.registry [V2.EXTENSIONS_CONDITION]).map (fun t => t.name) =
      ["install_extension", "uninstall_extension", "list_extensions",
       "reload_extension", "open_extension_sidepanel"] :=
  ⟨rfl, rfl, rfl⟩

/-- C2: for every invocation of `install_extension` with validated parameter
`path`, if the context\x27s `installExtension(path)` succeeds returning `id`,
the finalized response carries the single line
`Extension installed. Id: $\x7bid\x7d`, and the context saw exactly that one
install call. -/
theorem installExtension_success_line (path id : String) (caps : List String)
    (ctx : Ctx) (h : ctx.installExtension path = .ok id) :
    invoke V1.registry "install_extension" [("path", path)] caps ctx =
      (.success { lines := [s!"Extension installed. Id: {id}"] },
       [.installExtension path]) := by
  simp [invoke, V1.registry, V1.installExtension, validate, installExtensionHandler, h,
    appendResponseLine, List.lookup]

/-- C2 (witness): path `/tmp/ext` against a context returning `abc123`
yields the line `Extension installed. Id: abc123`. -/
theorem installExtension_success_line_witness :
    invoke V1.registry "install_extension" [("path", "/tmp/ext")] []
      ⟨fun _ => .ok "abc123", fun _ => .ok (), fun _ => none,
       fun _ => .error "no sidepanel"⟩ =
      (.success { lines := ["Extension installed. Id: abc123"] },
       [.installExtension "/tmp/ext"]) :=
  installExtension_success_line "/tmp/ext" "abc123" [] _ rfl

/-- C3: every raw payload missing the required key `path` (in particular the
empty payload) makes `invoke` of `install_extension` return a
`ValidationError` naming `path` among the missing keys, with an empty
context-call trace: the handler never ran and `installExtension` was never
called. -/
theorem installExtension_missing_path_validation (raw : List (String × String))
    (caps : List String) (ctx : Ctx) (h : "path" ∉ raw.map Prod.fst) :
    ∃ e : ValidationError,
      invoke V1.registry "install_extension" raw caps ctx =
        (.validationFailed e, []) ∧
      "path" ∈ e.missing := by
  refine ⟨⟨["path"], (raw.map Prod.fst).filter (fun k => k ≠ "path")⟩, ?_, by simp⟩
  simp [invoke, V1.registry, V1.installExtension, V1.uninstallExtension, V1.listExtensions,
    V1.reloadExtension, V1.openExtensionSidepanel, validate, h]

/-- C3 (witness): the empty payload `\x7b\x7d` is rejected with `path` missing and
zero context calls. -/
theorem installExtension_missing_path_validation_witness :
    ("path" ∉ ([] : List (String × String)).map Prod.fst) ∧
    ∃ e : ValidationError,
      invoke V1.registry "install_extension" [] []
        ⟨fun _ => .ok "abc123", fun _ => .ok (), fun _ => none, fun _ => .error "x"⟩ =
        (.validationFailed e, []) ∧
      "path" ∈ e.missing :=
  ⟨by simp, installExtension_missing_path_validation [] [] _ (by simp)⟩

/-- C4: invoking `reload_extension` with an id for which the context\x27s
`getExtension` is absent makes the handler throw
`Extension with ID $\x7bid\x7d not found.`; the dispatcher converts this into a
handler-error response (no crash), the response carries no line appended
before the failure, and the call trace holds only the `getExtension` lookup
— in particular zero `installExtension` calls. -/
theorem reloadExtension_absent_handler_error (id : String) (caps : List String)
    (ctx : Ctx) (h : ctx.getExtension id = none) :
    invoke V1.registry "reload_extension" [("id", id)] caps ctx =
      (.handlerFailed s!"Extension with ID {id} not found." {},
       [.getExtension id]) := by
  simp [invoke, V1.registry, V1.installExtension, V1.uninstallExtension, V1.listExtensions,
    V1.reloadExtension, V1.openExtensionSidepanel, validate, reloadExtensionHandler, h,
    List.lookup]

/-- C4 (witness): id `xyz` against a context with no extensions. -/
theorem reloadExtension_absent_handler_error_witness :
    invoke V1.registry "reload_extension" [("id", "xyz")] []
      ⟨fun _ => .ok "a", fun _ => .ok (), fun _ => none, fun _ => .error "x"⟩ =
      (.handlerFailed "Extension with ID xyz not found." {}, [.getExtension "xyz"]) :=
  reloadExtension_absent_handler_error "xyz" [] _ rfl

/-- C5: a registered tool whose `conditions` are not all satisfied by the
active capability set yields upon invocation exactly the outcome
`(notFound, no context call)`, and this outcome coincides with the one of
invoking a name that was never registered — whatever payload and context
either invocation uses, the two are indistinguishable to the caller. -/
theorem gated_tool_invoke_not_found (reg : List ToolDefinition) (nm other : String)
    (t : ToolDefinition) (caps : List String) (raw raw2 : List (String × String))
    (ctx ctx2 : Ctx)
    (hfind : reg.find? (fun d => d.name == nm) = some t)
    (hgate : t.annots.conditions.all (fun c => caps.contains c) = false)
    (habsent : reg.find? (fun d => d.name == other) = none) :
    invoke reg nm raw caps ctx = (.notFound, []) ∧
    invoke reg nm raw caps ctx = invoke reg other raw2 caps ctx2 := by
  have h1 : invoke reg nm raw caps ctx = (.notFound, []) := by
    unfold invoke
    rw [hfind]
    simp
    intro hall
    have hall2 : (t.annots.conditions.all fun c => caps.contains c) = true := by
      simpa using hall
    rw [hgate] at hall2
    simp at hall2
  have h2 : invoke reg other raw2 caps ctx2 = (.notFound, []) := by
    unfold invoke
    rw [habsent]
  exact ⟨h1, h1.trans h2.symm⟩

/-- C5 (witness): invoking the gated `install_extension` with the empty
capability set equals `(notFound, [])`, the same outcome as the
never-registered name `no_such_tool` — even under a different payload and
context. -/
theorem gated_tool_invoke_not_found_witness :
    (V2.registry.find? (fun d => d.name == "install_extension") =
      some V2.installExtension) ∧
    (V2.installExtension.annots.conditions.all
      (fun c => ([] : List String).contains c) = false) ∧
    (V2.registry.find? (fun d => d.name == "no_such_tool") = none) ∧
    (invoke V2.registry "install_extension" [("path", "/tmp/ext")] []
        ⟨fun _ => .ok "a", fun _ => .ok (), fun _ => none, fun _ => .error "x"⟩ =
      (.notFound, []) ∧
     invoke V2.registry "install_extension" [("path", "/tmp/ext")] []
        ⟨fun _ => .ok "a", fun _ => .ok (), fun _ => none, fun _ => .error "x"⟩ =
     invoke V2.registry "no_such_tool" [] []
        ⟨fun _ => .ok "b", fun _ => .ok (), fun _ => none, fun _ => .error "y"⟩) :=
  ⟨rfl, rfl, rfl,
   gated_tool_invoke_not_found V2.registry "install_extension" "no_such_tool"
     V2.installExtension [] [("path", "/tmp/ext")] [] _ _ rfl rfl rfl⟩

/-- C6: when the context\x27s `openExtensionSidepanel` succeeds with
`\x7burl, note, windowId\x7d`, the EXTENSIONS-category `open_extension_sidepanel`
produces a finalized response whose lines are exactly
`Sidepanel opened: $\x7burl\x7d`, the empty line, and `> $\x7bnote\x7d`, in the order
of the `appendResponseLine` calls, with the include-pages flag set to
`true`. -/
theorem openExtensionSidepanel_success_lines (id url note : String)
    (windowId : Nat) (caps : List String) (ctx : Ctx)
    (h : ctx.openExtensionSidepanel id = .ok ⟨url, note, windowId⟩) :
    invoke V1.registry "open_extension_sidepanel" [("id", id)] caps ctx =
      (.success { lines := [s!"Sidepanel opened: {url}", "", s!"> {note}"],
                  includePages := true },
       [.openExtensionSidepanel id]) := by
  simp [invoke, V1.registry, V1.installExtension, V1.uninstallExtension, V1.listExtensions,
    V1.reloadExtension, V1.openExtensionSidepanel, validate, openExtensionSidepanelHandler,
    h, appendResponseLine, setIncludePages, List.lookup]

/-- C6 (witness): a concrete successful sidepanel result. -/
theorem openExtensionSidepanel_success_lines_witness :
    invoke V1.registry "open_extension_sidepanel" [("id", "ext1")] []
      ⟨fun _ => .ok "a", fun _ => .ok (), fun _ => none,
       fun _ => .ok ⟨"chrome-extension://ext1/panel.html", "opens detached", 7⟩⟩ =
      (.success { lines := ["Sidepanel opened: chrome-extension://ext1/panel.html", "",
          "> opens detached"], includePages := true },
       [.openExtensionSidepanel "ext1"]) :=
  openExtensionSidepanel_success_lines "ext1" "chrome-extension://ext1/panel.html"
    "opens detached" 7 [] _ rfl

/-- C7: when the context\x27s `openExtensionSidepanel` fails, the
DEBUGGING-category `open_extension_sidepanel` catches the error itself: the
invocation still succeeds (no handler-error outcome), and the finalized
response is non-empty — its lines are the failure headline, the
`**Error:** $\x7bmsg\x7d` line and the troubleshooting bullets, so it never
silently succeeds with no output. -/
theorem openExtensionSidepanelDebug_failure_response (eid msg : String)
    (caps : List String) (ctx : Ctx)
    (h : ctx.openExtensionSidepanel eid = .error msg) :
    invoke V2.registry "open_extension_sidepanel" [("extensionId", eid)] caps ctx =
      (.success { lines := ["# Failed to Open Sidepanel", "", s!"**Error:** {msg}", "",
          "**Troubleshooting:**",
          "- Ensure the extension is installed and enabled",
          "- Verify the extension has a `side_panel.default_path` in its manifest.json",
          "- Check that the extension has a service worker running",
          "- Use `list_pages` to see available service workers"] },
       [.openExtensionSidepanel eid]) := by
  simp [invoke, V2.registry, V2.installExtension, V2.uninstallExtension, V2.listExtensions,
    V2.reloadExtension, V2.openExtensionSidepanel, validate,
    openExtensionSidepanelDebugHandler, h, appendResponseLine, setIncludePages, List.lookup]

/-- C7 (witness): a concrete failing sidepanel call renders the failure
report. -/
theorem openExtensionSidepanelDebug_failure_response_witness :
    invoke V2.registry "open_extension_sidepanel" [("extensionId", "ext1")] []
      ⟨fun _ => .ok "a", fun _ => .ok (), fun _ => none, fun _ => .error "no side panel"⟩ =
      (.success { lines := ["# Failed to Open Sidepanel", "", "**Error:** no side panel", "",
          "**Troubleshooting:**",
          "- Ensure the extension is installed and enabled",
          "- Verify the extension has a `side_panel.default_path` in its manifest.json",
          "- Check that the extension has a service worker running",
          "- Use `list_pages` to see available service workers"] },
       [.openExtensionSidepanel "ext1"]) :=
  openExtensionSidepanelDebug_failure_response "ext1" "no side panel" [] _ rfl

/-- C8: the two `open_extension_sidepanel` definitions are not behaviorally
equivalent: their schemas declare `id` versus `extensionId`, their
categories are EXTENSIONS versus DEBUGGING, and on a failing context call
the first propagates the error while the second returns normally having
rendered the failure (including the error message) into the response
builder. -/
theorem openExtensionSidepanel_definitions_differ :
    V1.openExtensionSidepanel.schema.map Prod.fst = ["id"] ∧
    V2.openExtensionSidepanel.schema.map Prod.fst = ["extensionId"] ∧
    V1.openExtensionSidepanel.annots.category = ToolCategory.EXTENSIONS ∧
    V2.openExtensionSidepanel.annots.category = ToolCategory.DEBUGGING ∧
    (openExtensionSidepanelHandler ⟨"ext1"⟩ {}
        ⟨fun _ => .ok "", fun _ => .ok (), fun _ => none, fun _ => .error "boom"⟩).outcome =
      .error "boom" ∧
    (openExtensionSidepanelDebugHandler ⟨"ext1"⟩ {}
        ⟨fun _ => .ok "", fun _ => .ok (), fun _ => none, fun _ => .error "boom"⟩).outcome =
      .ok () ∧
    "**Error:** boom" ∈
      (openExtensionSidepanelDebugHandler ⟨"ext1"⟩ {}
        ⟨fun _ => .ok "", fun _ => .ok (), fun _ => none, fun _ => .error "boom"⟩).response.lines :=
  ⟨rfl, rfl, rfl, rfl, rfl, rfl, by decide⟩

/-- C9: the `list_extensions` handler (shared verbatim by both module
versions, as their `run` fields show) makes no execution-context call,
appends no text line, and only sets the list-extensions flag, leaving every
other builder field unchanged. -/
theorem listExtensions_only_sets_flag (r : ResponseState) (ctx : Ctx) :
    listExtensionsHandler r ctx =
      { outcome := .ok (), response := { r with listExtensions := true }, calls := [] } ∧
    V1.listExtensions.run [] r ctx = listExtensionsHandler r ctx ∧
    V2.listExtensions.run [] r ctx = listExtensionsHandler r ctx :=
  ⟨rfl, rfl, rfl⟩

/-- C10: for EVERY invocation of `reload_extension` whose id resolves via
`getExtension` to a record, the call trace is exactly one `getExtension`
lookup followed by exactly one `installExtension` call whose argument is
the record\x27s stored `path` (not the id) — whether the reinstall succeeds or
fails; when it succeeds the finalized response is exactly the line
`Extension reloaded.`, and when it fails the error propagates with no line
appended. -/
theorem reloadExtension_found_reload (id : String) (ext : ExtensionRecord)
    (caps : List String) (ctx : Ctx)
    (h1 : ctx.getExtension id = some ext) :
    (invoke V1.registry "reload_extension" [("id", id)] caps ctx).2 =
      [.getExtension id, .installExtension ext.path] ∧
    (∀ newId, ctx.installExtension ext.path = .ok newId →
      (invoke V1.registry "reload_extension" [("id", id)] caps ctx).1 =
        .success { lines := ["Extension reloaded."] }) ∧
    (∀ e, ctx.installExtension ext.path = .error e →
      (invoke V1.registry "reload_extension" [("id", id)] caps ctx).1 =
        .handlerFailed e {}) := by
  cases hinst : ctx.installExtension ext.path with
  | error e =>
    have hv : invoke V1.registry "reload_extension" [("id", id)] caps ctx =
        (.handlerFailed e {}, [.getExtension id, .installExtension ext.path]) := by
      simp [invoke, V1.registry, V1.installExtension, V1.uninstallExtension,
        V1.listExtensions, V1.reloadExtension, V1.openExtensionSidepanel, validate,
        reloadExtensionHandler, h1, hinst, List.lookup]
    refine ⟨by rw [hv], ?_, ?_⟩
    · intro newId hok
      exact absurd hok (by simp)
    · intro e2 herr
      injection herr with he
      rw [hv, he]
  | ok newId =>
    have hv : invoke V1.registry "reload_extension" [("id", id)] caps ctx =
        (.success { lines := ["Extension reloaded."] },
         [.getExtension id, .installExtension ext.path]) := by
      simp [invoke, V1.registry, V1.installExtension, V1.uninstallExtension,
        V1.listExtensions, V1.reloadExtension, V1.openExtensionSidepanel, validate,
        reloadExtensionHandler, h1, hinst, appendResponseLine, List.lookup]
    refine ⟨by rw [hv], ?_, ?_⟩
    · intro newId2 _
      rw [hv]
    · intro e herr
      exact absurd herr (by simp)

/-- C10 (witness): id `xyz` stored at path `/tmp/ext`.  Against a context
whose reinstall succeeds, the trace is the lookup then one install of the
path (not the id) and the response is `Extension reloaded.`; against a
context whose reinstall fails with `disk error`, the trace is identical and
the error propagates. -/
theorem reloadExtension_found_reload_witness :
    ((invoke V1.registry "reload_extension" [("id", "xyz")] []
        ⟨fun _ => .ok "newid", fun _ => .ok (), fun _ => some ⟨"/tmp/ext"⟩,
         fun _ => .error "x"⟩).2 =
      [.getExtension "xyz", .installExtension "/tmp/ext"] ∧
     (invoke V1.registry "reload_extension" [("id", "xyz")] []
        ⟨fun _ => .ok "newid", fun _ => .ok (), fun _ => some ⟨"/tmp/ext"⟩,
         fun _ => .error "x"⟩).1 =
      .success { lines := ["Extension reloaded."] }) ∧
    ((invoke V1.registry "reload_extension" [("id", "xyz")] []
        ⟨fun _ => .error "disk error", fun _ => .ok (), fun _ => some ⟨"/tmp/ext"⟩,
         fun _ => .error "x"⟩).2 =
      [.getExtension "xyz", .installExtension "/tmp/ext"] ∧
     (invoke V1.registry "reload_extension" [("id", "xyz")] []
        ⟨fun _ => .error "disk error", fun _ => .ok (), fun _ => some ⟨"/tmp/ext"⟩,
         fun _ => .error "x"⟩).1 =
      .handlerFailed "disk error" {}) :=
  ⟨⟨(reloadExtension_found_reload "xyz" ⟨"/tmp/ext"⟩ [] _ rfl).1,
    (reloadExtension_found_reload "xyz" ⟨"/tmp/ext"⟩ [] _ rfl).2.1 "newid" rfl⟩,
   ⟨(reloadExtension_found_reload "xyz" ⟨"/tmp/ext"⟩ [] _ rfl).1,
    (reloadExtension_found_reload "xyz" ⟨"/tmp/ext"⟩ [] _ rfl).2.2 "disk error" rfl⟩⟩

end CDM
